import Mathlib

/-!
Verification of the `AutoBrake` event-driven controller from `ch10.cpp`
(the brake example of the testing chapter): event records, the mock service bus,
the three subscribed handlers, and the collision-threshold setter.

C++ `double` values are modelled by `FP`: exact rationals extended with the
IEEE-754 special values `+inf`, `-inf` and NaN. The operations the controller
performs on doubles (comparison and division) are given their IEEE semantics
on these values (comparisons involving NaN are false; division by zero yields
a signed infinity or NaN; zero is modelled unsigned, as positive zero).
`unsigned short` is modelled by `Nat` (no arithmetic is performed on it, only
assignment and comparison against a double, which are exact).
-/

namespace Ch10

/-- Model of a C++ `double`: an exact rational, `+inf`, `-inf`, or NaN. -/
inductive FP where
  | finite (q : ℚ)
  | posInf
  | negInf
  | nan
deriving DecidableEq, Repr

/-- IEEE `<` on doubles: any comparison with NaN is false. -/
def FP.lt : FP → FP → Bool
  | .nan, _ => false
  | _, .nan => false
  | .finite a, .finite b => decide (a < b)
  | .finite _, .posInf => true
  | .finite _, .negInf => false
  | .posInf, _ => false
  | .negInf, .negInf => false
  | .negInf, _ => true

/-- IEEE `<=` on doubles: any comparison with NaN is false. -/
def FP.le : FP → FP → Bool
  | .nan, _ => false
  | _, .nan => false
  | .finite a, .finite b => decide (a ≤ b)
  | .finite _, .posInf => true
  | .finite _, .negInf => false
  | .posInf, .posInf => true
  | .posInf, _ => false
  | .negInf, _ => true

/-- IEEE division on doubles, with zero treated as positive zero:
`a / 0` is `+inf`, `-inf` or NaN according to the sign of `a`;
division never traps. Finite quotients are exact here (no rounding),
which is faithful for every value appearing in the tested scenarios. -/
def FP.div : FP → FP → FP
  | .nan, _ => .nan
  | _, .nan => .nan
  | .finite a, .finite b =>
      if b ≠ 0 then .finite (a / b)
      else if 0 < a then .posInf
      else if a < 0 then .negInf
      else .nan
  | .finite _, .posInf => .finite 0
  | .finite _, .negInf => .finite 0
  | .posInf, .finite b => if 0 ≤ b then .posInf else .negInf
  | .negInf, .finite b => if 0 ≤ b then .negInf else .posInf
  | .posInf, _ => .nan
  | .negInf, _ => .nan

/-- Is the value finite (neither an infinity nor NaN)? -/
def FP.isFinite : FP → Bool
  | .finite _ => true
  | _ => false

/-- Embedding of an `unsigned short` into a double (always exact). -/
def FP.ofNat (n : Nat) : FP := .finite n

/-- Record `struct SpeedUpdate { double velocity_mps; }`. -/
structure SpeedUpdate where
  velocity_mps : FP
deriving DecidableEq, Repr

/-- Record `struct CarDetected { double distance_m; double velocity_mps; }`. -/
structure CarDetected where
  distance_m : FP
  velocity_mps : FP
deriving DecidableEq, Repr

/-- Record `struct SpeedLimitDetected { unsigned short speed_mps; }`. -/
structure SpeedLimitDetected where
  speed_mps : Nat
deriving DecidableEq, Repr

/-- Record `struct BrakeCommand { double time_to_collision_s; }`. -/
structure BrakeCommand where
  time_to_collision_s : FP
deriving DecidableEq, Repr

/-- The observable part of `MockServiceBus`: the publication counter and the
last published command (`publish` overwrites `last_command` and increments
`commands_published`). -/
structure MockServiceBus where
  last_command : BrakeCommand
  commands_published : Nat
deriving DecidableEq, Repr

/-- Method `MockServiceBus::publish`. -/
def MockServiceBus.publish (bus : MockServiceBus) (cmd : BrakeCommand) : MockServiceBus :=
  { last_command := cmd, commands_published := bus.commands_published + 1 }

/-- A freshly value-initialized `MockServiceBus{}`:
`last_command{}` zero-initializes `time_to_collision_s`, `commands_published{}` is 0. -/
def MockServiceBus.init : MockServiceBus :=
  { last_command := { time_to_collision_s := FP.finite 0 }, commands_published := 0 }

/-- The mutable state of `AutoBrake`. -/
structure AutoBrake where
  collision_threshold_s : FP
  speed_mps : FP
  last_known_speed_limit : Nat
deriving DecidableEq, Repr

/-- The member initializers of `AutoBrake::AutoBrake`:
`collision_threshold_s{ 5 }`, `last_known_speed_limit{ 39 }`, `speed_mps{}`. -/
def AutoBrake.init : AutoBrake :=
  { collision_threshold_s := FP.finite 5
    speed_mps := FP.finite 0
    last_known_speed_limit := 39 }

/-- The `SpeedUpdate` lambda subscribed in the constructor:
if `update.velocity_mps > last_known_speed_limit` publish `BrakeCommand{0}`,
else store the velocity in `speed_mps`. -/
def AutoBrake.speed_update_callback (a : AutoBrake) (bus : MockServiceBus)
    (update : SpeedUpdate) : AutoBrake × MockServiceBus :=
  if FP.lt (FP.ofNat a.last_known_speed_limit) update.velocity_mps then
    (a, bus.publish { time_to_collision_s := FP.finite 0 })
  else
    ({ a with speed_mps := update.velocity_mps }, bus)

/-- The `CarDetected` lambda subscribed in the constructor:
`time_to_collision_s = cd.distance_m / speed_mps` (the velocity of the detected car is never read), published iff `0 < time_to_collision_s` and
`time_to_collision_s <= collision_threshold_s`. -/
def AutoBrake.car_detected_callback (a : AutoBrake) (bus : MockServiceBus)
    (cd : CarDetected) : AutoBrake × MockServiceBus :=
  let relative_velocity_mps := a.speed_mps
  let time_to_collision_s := FP.div cd.distance_m relative_velocity_mps
  if FP.lt (FP.finite 0) time_to_collision_s &&
      FP.le time_to_collision_s a.collision_threshold_s then
    (a, bus.publish { time_to_collision_s := time_to_collision_s })
  else
    (a, bus)

/-- The `SpeedLimitDetected` lambda subscribed in the constructor:
store the limit, then publish `BrakeCommand{0}` if
`speed_mps > last_known_speed_limit` (with the just-stored limit). -/
def AutoBrake.speed_limit_callback (a : AutoBrake) (bus : MockServiceBus)
    (limit : SpeedLimitDetected) : AutoBrake × MockServiceBus :=
  let a1 : AutoBrake := { a with last_known_speed_limit := limit.speed_mps }
  if FP.lt (FP.ofNat a1.last_known_speed_limit) a1.speed_mps then
    (a1, bus.publish { time_to_collision_s := FP.finite 0 })
  else
    (a1, bus)

/-- Method `AutoBrake::set_collision_threshold_s`: throws `std::out_of_range` when
`x < 1`, otherwise assigns the threshold. -/
def AutoBrake.set_collision_threshold_s (a : AutoBrake) (x : FP) :
    Except String AutoBrake :=
  if FP.lt x (FP.finite 1) then
    Except.error "Collision less than 1."
  else
    Except.ok { a with collision_threshold_s := x }

/-- The three inbound event channels of the controller. -/
inductive Event where
  | speedUpdate (u : SpeedUpdate)
  | carDetected (cd : CarDetected)
  | speedLimitDetected (l : SpeedLimitDetected)
deriving DecidableEq, Repr

/-- Deliver one event to the corresponding subscribed handler. -/
def step (a : AutoBrake) (bus : MockServiceBus) : Event → AutoBrake × MockServiceBus
  | .speedUpdate u => a.speed_update_callback bus u
  | .carDetected cd => a.car_detected_callback bus cd
  | .speedLimitDetected l => a.speed_limit_callback bus l

/-- Controller states reachable from construction through event deliveries
and successful `set_collision_threshold_s` calls. -/
inductive Reachable : AutoBrake → Prop where
  | init : Reachable AutoBrake.init
  | step {a a1 : AutoBrake} {bus : MockServiceBus} {e : Event} :
      Reachable a → (step a bus e).1 = a1 → Reachable a1
  | set {a a1 : AutoBrake} {x : FP} :
      Reachable a → a.set_collision_threshold_s x = Except.ok a1 → Reachable a1

/-- Scenario B after `set_collision_threshold_s(10)` and `SpeedUpdate{100}`
(the state of the test `alert_when_collision_imminent` before the car event). -/
def scenarioB_mid : Except String (AutoBrake × MockServiceBus) :=
  (AutoBrake.init.set_collision_threshold_s (FP.finite 10)).map fun a =>
    a.speed_update_callback MockServiceBus.init { velocity_mps := FP.finite 100 }

/-- Scenario B complete: then `CarDetected{100, 0}`. -/
def runScenarioB : Except String (AutoBrake × MockServiceBus) :=
  scenarioB_mid.map fun r =>
    r.1.car_detected_callback r.2 { distance_m := FP.finite 100, velocity_mps := FP.finite 0 }

/-- Scenario C after `set_collision_threshold_s(2)` and `SpeedUpdate{100}`
(the state of the test `no_alert_when_collision_not_imminent` before the car event). -/
def scenarioC_mid : Except String (AutoBrake × MockServiceBus) :=
  (AutoBrake.init.set_collision_threshold_s (FP.finite 2)).map fun a =>
    a.speed_update_callback MockServiceBus.init { velocity_mps := FP.finite 100 }

/-- Scenario C complete: then `CarDetected{1000, 50}`. -/
def runScenarioC : Except String (AutoBrake × MockServiceBus) :=
  scenarioC_mid.map fun r =>
    r.1.car_detected_callback r.2 { distance_m := FP.finite 1000, velocity_mps := FP.finite 50 }

/-- Scenario D: fresh controller, `SpeedLimitDetected{35}` then `SpeedUpdate{40}`. -/
def runScenarioD : AutoBrake × MockServiceBus :=
  let r1 := AutoBrake.init.speed_limit_callback MockServiceBus.init { speed_mps := 35 }
  r1.1.speed_update_callback r1.2 { velocity_mps := FP.finite 40 }

/-- Scenario E: fresh controller, `SpeedUpdate{30}` then `SpeedLimitDetected{25}`. -/
def runScenarioE : AutoBrake × MockServiceBus :=
  let r1 := AutoBrake.init.speed_update_callback MockServiceBus.init { velocity_mps := FP.finite 30 }
  r1.1.speed_limit_callback r1.2 { speed_mps := 25 }

/-- The state produced by `set_collision_threshold_s(NaN)` on a fresh controller:
NaN slips past the `x < 1` guard (IEEE comparisons with NaN are false). -/
def nanThresholdState : AutoBrake :=
  { collision_threshold_s := FP.nan, speed_mps := FP.finite 0, last_known_speed_limit := 39 }

/-- State `nanThresholdState` after `SpeedUpdate{30}` (30 is below the limit 39). -/
def nanCruisingState : AutoBrake :=
  { collision_threshold_s := FP.nan, speed_mps := FP.finite 30, last_known_speed_limit := 39 }

/-- The state produced by `set_collision_threshold_s(+inf)` on a fresh controller
(`+inf < 1` is false, so the call succeeds). -/
def infThresholdState : AutoBrake :=
  { collision_threshold_s := FP.posInf, speed_mps := FP.finite 0, last_known_speed_limit := 39 }

/-- A controller travelling at 100 m/s under a limit of 100. -/
def cruisingState : AutoBrake :=
  { collision_threshold_s := FP.finite 5, speed_mps := FP.finite 100, last_known_speed_limit := 100 }

/-- A fresh controller after `SpeedLimitDetected{100}`. -/
def limit100State : AutoBrake :=
  { collision_threshold_s := FP.finite 5, speed_mps := FP.finite 0, last_known_speed_limit := 100 }

/-- A controller whose recorded speed (40) exceeds a limit about to be detected. -/
def overspeedState : AutoBrake :=
  { collision_threshold_s := FP.finite 5, speed_mps := FP.finite 40, last_known_speed_limit := 100 }

/-- A fresh controller after `SpeedUpdate{30}`. -/
def s30 : AutoBrake :=
  { collision_threshold_s := FP.finite 5, speed_mps := FP.finite 30, last_known_speed_limit := 39 }

/- ------------------------------------------------------------------ -/
/- Helper lemmas -/

theorem FP.le_of_lt {x y : FP} (h : FP.lt x y = true) : FP.le x y = true := by
  cases x <;> cases y <;> simp_all [FP.lt, FP.le]
  linarith

theorem FP.not_lt_of_le {x y : FP} (h : FP.le x y = true) : FP.lt y x = false := by
  cases x <;> cases y <;> simp_all [FP.lt, FP.le]

theorem FP.one_le_of_not_lt {t : FP} (h : FP.lt t (FP.finite 1) = false)
    (hn : t ≠ FP.nan) : FP.le (FP.finite 1) t = true := by
  cases t <;> simp_all [FP.lt, FP.le]

theorem FP.zero_le_of_not_lt {t : FP} (h : FP.lt t (FP.finite 1) = false)
    (hn : t ≠ FP.nan) : FP.le (FP.finite 0) t = true := by
  cases t <;> simp_all [FP.lt, FP.le]
  linarith

/-- No event handler changes the collision threshold. -/
theorem step_threshold_eq (a : AutoBrake) (bus : MockServiceBus) (e : Event) :
    ((step a bus e).1).collision_threshold_s = a.collision_threshold_s := by
  cases e <;>
    simp only [step, AutoBrake.speed_update_callback, AutoBrake.car_detected_callback,
      AutoBrake.speed_limit_callback] <;>
    split <;> rfl

/-- A successful setter call rejected the `x < 1` branch and wrote `x`. -/
theorem set_ok_inv {a a1 : AutoBrake} {x : FP}
    (h : a.set_collision_threshold_s x = Except.ok a1) :
    FP.lt x (FP.finite 1) = false ∧ a1 = { a with collision_threshold_s := x } := by
  unfold AutoBrake.set_collision_threshold_s at h
  by_cases hc : FP.lt x (FP.finite 1) = true
  · rw [if_pos hc] at h
    exact absurd h (by simp)
  · rw [if_neg hc] at h
    simp only [Except.ok.injEq] at h
    exact ⟨by simpa using hc, h.symm⟩

/-- Reachability invariant: the threshold is never `< 1` (it may be NaN). -/
theorem reachable_not_lt_one {a : AutoBrake} (h : Reachable a) :
    FP.lt a.collision_threshold_s (FP.finite 1) = false := by
  induction h with
  | init => decide
  | step hr heq ih =>
      rename_i a0 a1 bus e
      rw [← heq, step_threshold_eq]
      exact ih
  | set hr heq ih =>
      rename_i a0 a1 x
      obtain ⟨hlt, ha1⟩ := set_ok_inv heq
      rw [ha1]
      exact hlt

/- ------------------------------------------------------------------ -/
/- Claim theorems -/

/-- C1 counterexample: running Scenario B exactly as claimed (fresh controller
with its construction constants, `set_collision_threshold_s(10)`,
`SpeedUpdate{100}`, `CarDetected{100, 0}`) publishes exactly one command, but
its `time_to_collision_s` is 0, not 1: `SpeedUpdate{100}` exceeds the initial
speed limit 39, so the overspeed branch publishes `BrakeCommand{0}` and leaves
`speed_mps` at 0, and the car-detected handler then divides by zero speed and
publishes nothing. -/
theorem C1_counterexample :
    runScenarioB = Except.ok
      ({ collision_threshold_s := FP.finite 10, speed_mps := FP.finite 0,
         last_known_speed_limit := 39 },
       { last_command := { time_to_collision_s := FP.finite 0 }, commands_published := 1 }) ∧
    FP.finite 0 ≠ FP.finite 1 :=
  ⟨rfl, by decide⟩

/-- C1 (amended): Scenario B publishes exactly one `BrakeCommand` in total, but
with `time_to_collision_s == 0`; the command comes from the overspeed branch of
the `SpeedUpdate` handler (the publication count is already 1 before the
`CarDetected` event), and the final recorded speed is still 0. -/
theorem C1_scenarioB_amended :
    runScenarioB = Except.ok
      ({ collision_threshold_s := FP.finite 10, speed_mps := FP.finite 0,
         last_known_speed_limit := 39 },
       { last_command := { time_to_collision_s := FP.finite 0 }, commands_published := 1 }) ∧
    scenarioB_mid.map (fun r => r.2.commands_published) = Except.ok 1 :=
  ⟨rfl, rfl⟩

/-- C2 counterexample: running Scenario C exactly as claimed
(`set_collision_threshold_s(2)`, `SpeedUpdate{100}`, `CarDetected{1000, 50}`)
publishes one command, not zero: `SpeedUpdate{100}` exceeds the initial speed
limit 39 and triggers an overspeed `BrakeCommand{0}`. -/
theorem C2_counterexample :
    runScenarioC.map (fun r => r.2.commands_published) = Except.ok 1 ∧ (1 : Nat) ≠ 0 :=
  ⟨rfl, by decide⟩

/-- C2 (amended): Scenario C publishes exactly one `BrakeCommand` in total,
with `time_to_collision_s == 0`, and it is published by the overspeed branch of
the `SpeedUpdate{100}` handler (the count is already 1 before the `CarDetected`
event); the `CarDetected{1000, 50}` event itself publishes nothing (recorded
speed is still 0, so the quotient is `+inf` and the guard fails). -/
theorem C2_scenarioC_amended :
    runScenarioC = Except.ok
      ({ collision_threshold_s := FP.finite 2, speed_mps := FP.finite 0,
         last_known_speed_limit := 39 },
       { last_command := { time_to_collision_s := FP.finite 0 }, commands_published := 1 }) ∧
    scenarioC_mid.map (fun r => r.2.commands_published) = Except.ok 1 :=
  ⟨rfl, rfl⟩

/-- C3 counterexample: `set_collision_threshold_s(NaN)` on a fresh controller
succeeds (`NaN < 1` is false in IEEE comparison), producing a reachable state
whose threshold is NaN, for which `collision_threshold_s >= 1.0` does not hold. -/
theorem C3_counterexample :
    AutoBrake.init.set_collision_threshold_s FP.nan = Except.ok nanThresholdState ∧
    Reachable nanThresholdState ∧
    FP.le (FP.finite 1) nanThresholdState.collision_threshold_s = false := by
  have h : AutoBrake.init.set_collision_threshold_s FP.nan = Except.ok nanThresholdState := rfl
  exact ⟨h, Reachable.set Reachable.init h, by decide⟩

/-- C3 (amended): in every reachable state the threshold is never `< 1.0`
(and is `>= 1.0` whenever it is not NaN — NaN, which slips past the `x < 1`
guard, is the only exception); for every `x < 1.0` the setter fails with
`std::out_of_range` and the state is untouched, and for every `x >= 1.0` the
setter succeeds and stores exactly `x`. -/
theorem C3_threshold_invariant_amended :
    (∀ a : AutoBrake, Reachable a →
      FP.lt a.collision_threshold_s (FP.finite 1) = false) ∧
    (∀ a : AutoBrake, Reachable a → a.collision_threshold_s ≠ FP.nan →
      FP.le (FP.finite 1) a.collision_threshold_s = true) ∧
    (∀ (a : AutoBrake) (x : FP), FP.lt x (FP.finite 1) = true →
      a.set_collision_threshold_s x = Except.error "Collision less than 1.") ∧
    (∀ (a : AutoBrake) (x : FP), FP.le (FP.finite 1) x = true →
      a.set_collision_threshold_s x =
        Except.ok { a with collision_threshold_s := x }) := by
  refine ⟨fun a ha => reachable_not_lt_one ha,
          fun a ha hn => FP.one_le_of_not_lt (reachable_not_lt_one ha) hn,
          fun a x hx => ?_, fun a x hx => ?_⟩
  · simp [AutoBrake.set_collision_threshold_s, hx]
  · simp [AutoBrake.set_collision_threshold_s, FP.not_lt_of_le hx]

/-- C3 witness: concrete instances — the fresh state satisfies the invariant,
`set_collision_threshold_s(0)` fails, `set_collision_threshold_s(10)` succeeds. -/
theorem C3_witness :
    Reachable AutoBrake.init ∧
    FP.lt AutoBrake.init.collision_threshold_s (FP.finite 1) = false ∧
    FP.le (FP.finite 1) AutoBrake.init.collision_threshold_s = true ∧
    AutoBrake.init.set_collision_threshold_s (FP.finite 0) =
      Except.error "Collision less than 1." ∧
    AutoBrake.init.set_collision_threshold_s (FP.finite 10) =
      Except.ok { AutoBrake.init with collision_threshold_s := FP.finite 10 } :=
  ⟨Reachable.init,
   C3_threshold_invariant_amended.1 AutoBrake.init Reachable.init,
   C3_threshold_invariant_amended.2.1 AutoBrake.init Reachable.init (by decide),
   C3_threshold_invariant_amended.2.2.1 AutoBrake.init (FP.finite 0) (by decide),
   C3_threshold_invariant_amended.2.2.2 AutoBrake.init (FP.finite 10) (by decide)⟩

/-- C4: the `SpeedUpdate` handler publishes exactly one `BrakeCommand{0}` and
leaves the whole state (in particular `speed_mps`) unchanged when the velocity
exceeds the last known speed limit, and otherwise stores the velocity in
`speed_mps` and publishes nothing; and in Scenario D (`SpeedLimitDetected{35}`
then `SpeedUpdate{40}` on a fresh controller) exactly one `BrakeCommand{0}` is
published and `speed_mps` stays 0 rather than becoming 40. -/
theorem C4_speed_update_behavior :
    (∀ (a : AutoBrake) (bus : MockServiceBus) (u : SpeedUpdate),
      (FP.lt (FP.ofNat a.last_known_speed_limit) u.velocity_mps = true →
        a.speed_update_callback bus u =
          (a, bus.publish { time_to_collision_s := FP.finite 0 })) ∧
      (FP.lt (FP.ofNat a.last_known_speed_limit) u.velocity_mps = false →
        a.speed_update_callback bus u = ({ a with speed_mps := u.velocity_mps }, bus))) ∧
    runScenarioD =
      ({ collision_threshold_s := FP.finite 5, speed_mps := FP.finite 0,
         last_known_speed_limit := 35 },
       { last_command := { time_to_collision_s := FP.finite 0 }, commands_published := 1 }) := by
  refine ⟨fun a bus u => ⟨fun h => ?_, fun h => ?_⟩, rfl⟩
  · simp [AutoBrake.speed_update_callback, h]
  · simp [AutoBrake.speed_update_callback, h]

/-- C4 witness: on a fresh controller (limit 39), `SpeedUpdate{100}` takes the
overspeed branch and `SpeedUpdate{30}` takes the store branch. -/
theorem C4_witness :
    FP.lt (FP.ofNat AutoBrake.init.last_known_speed_limit) (FP.finite 100) = true ∧
    AutoBrake.init.speed_update_callback MockServiceBus.init { velocity_mps := FP.finite 100 } =
      (AutoBrake.init, MockServiceBus.init.publish { time_to_collision_s := FP.finite 0 }) ∧
    FP.lt (FP.ofNat AutoBrake.init.last_known_speed_limit) (FP.finite 30) = false ∧
    AutoBrake.init.speed_update_callback MockServiceBus.init { velocity_mps := FP.finite 30 } =
      ({ AutoBrake.init with speed_mps := FP.finite 30 }, MockServiceBus.init) :=
  ⟨by decide,
   (C4_speed_update_behavior.1 AutoBrake.init MockServiceBus.init
     { velocity_mps := FP.finite 100 }).1 (by decide),
   by decide,
   (C4_speed_update_behavior.1 AutoBrake.init MockServiceBus.init
     { velocity_mps := FP.finite 30 }).2 (by decide)⟩

/-- C5: for a controller with nonzero recorded speed, the car-detected handler
computes `time_to_collision_s = distance_m / speed_mps` from its own recorded
speed only — the velocity field of the detected car never influences the result —
and publishes exactly one `BrakeCommand` carrying that quotient precisely when
`0 < time_to_collision_s <= collision_threshold_s`, otherwise publishing
nothing; in every case the controller state is left untouched. -/
theorem C5_car_detected_behavior (a : AutoBrake) (bus : MockServiceBus) (cd : CarDetected)
    (_h : a.speed_mps ≠ FP.finite 0) :
    (∀ v : FP, a.car_detected_callback bus { distance_m := cd.distance_m, velocity_mps := v } =
      a.car_detected_callback bus cd) ∧
    ((FP.lt (FP.finite 0) (FP.div cd.distance_m a.speed_mps) &&
        FP.le (FP.div cd.distance_m a.speed_mps) a.collision_threshold_s) = true →
      a.car_detected_callback bus cd =
        (a, bus.publish { time_to_collision_s := FP.div cd.distance_m a.speed_mps })) ∧
    ((FP.lt (FP.finite 0) (FP.div cd.distance_m a.speed_mps) &&
        FP.le (FP.div cd.distance_m a.speed_mps) a.collision_threshold_s) = false →
      a.car_detected_callback bus cd = (a, bus)) := by
  refine ⟨fun v => rfl, fun hg => ?_, fun hg => ?_⟩
  · simp [AutoBrake.car_detected_callback, hg]
  · simp [AutoBrake.car_detected_callback, hg]

/-- C5 witness: at 100 m/s with threshold 5, `CarDetected{100, 20}` yields
`time_to_collision_s = 1` and one published command carrying it. -/
theorem C5_witness :
    cruisingState.speed_mps ≠ FP.finite 0 ∧
    (FP.lt (FP.finite 0) (FP.div (FP.finite 100) cruisingState.speed_mps) &&
      FP.le (FP.div (FP.finite 100) cruisingState.speed_mps)
        cruisingState.collision_threshold_s) = true ∧
    cruisingState.car_detected_callback MockServiceBus.init
        { distance_m := FP.finite 100, velocity_mps := FP.finite 20 } =
      (cruisingState, MockServiceBus.init.publish
        { time_to_collision_s := FP.div (FP.finite 100) cruisingState.speed_mps }) := by
  have hdiv : FP.div (FP.finite 100) cruisingState.speed_mps = FP.finite 1 := by
    show FP.div (FP.finite 100) (FP.finite 100) = FP.finite 1
    norm_num [FP.div]
  refine ⟨by decide, ?_, ?_⟩
  · rw [hdiv]; decide
  · exact (C5_car_detected_behavior cruisingState MockServiceBus.init
      { distance_m := FP.finite 100, velocity_mps := FP.finite 20 } (by decide)).2.1
      (by show (FP.lt (FP.finite 0) (FP.div (FP.finite 100) cruisingState.speed_mps) &&
            FP.le (FP.div (FP.finite 100) cruisingState.speed_mps)
              cruisingState.collision_threshold_s) = true
          rw [hdiv]; decide)

/-- C6 counterexample: the claim fails when the threshold has been set to
`+inf` (which `set_collision_threshold_s` accepts, so the state is reachable):
at zero recorded speed, `CarDetected{100, 0}` gives `100 / 0 = +inf`, and the
guard `0 < +inf && +inf <= +inf` is true, so a `BrakeCommand{+inf}` IS
published. -/
theorem C6_counterexample :
    Reachable infThresholdState ∧
    infThresholdState.speed_mps = FP.finite 0 ∧
    infThresholdState.car_detected_callback MockServiceBus.init
        { distance_m := FP.finite 100, velocity_mps := FP.finite 0 } =
      (infThresholdState, MockServiceBus.init.publish { time_to_collision_s := FP.posInf }) ∧
    (MockServiceBus.init.publish { time_to_collision_s := FP.posInf }).commands_published = 1 := by
  have h : AutoBrake.init.set_collision_threshold_s FP.posInf = Except.ok infThresholdState := rfl
  exact ⟨Reachable.set Reachable.init h, rfl, rfl, rfl⟩

/-- C6 (amended): for every state with zero recorded speed whose threshold is
not `+inf`, the car-detected handler is total (modelled as a plain function:
the division yields `+inf`, `-inf` or NaN instead of trapping), the quotient is
non-finite, the guard evaluates false, and nothing is published and nothing is
mutated. -/
theorem C6_zero_speed_no_publish (a : AutoBrake) (bus : MockServiceBus) (cd : CarDetected)
    (h : a.speed_mps = FP.finite 0) (hth : a.collision_threshold_s ≠ FP.posInf) :
    FP.isFinite (FP.div cd.distance_m a.speed_mps) = false ∧
    (FP.lt (FP.finite 0) (FP.div cd.distance_m a.speed_mps) &&
      FP.le (FP.div cd.distance_m a.speed_mps) a.collision_threshold_s) = false ∧
    a.car_detected_callback bus cd = (a, bus) := by
  have hguard : (FP.lt (FP.finite 0) (FP.div cd.distance_m a.speed_mps) &&
      FP.le (FP.div cd.distance_m a.speed_mps) a.collision_threshold_s) = false ∧
      FP.isFinite (FP.div cd.distance_m a.speed_mps) = false := by
    rw [h]
    constructor
    · cases hd : cd.distance_m with
      | finite q =>
          simp only [FP.div, ne_eq, not_true_eq_false, if_false, ite_not]
          rcases lt_trichotomy q 0 with hq | hq | hq
          · rw [if_neg (by linarith), if_pos hq]
            simp [FP.lt]
          · rw [if_neg (by simp [hq]), if_neg (by simp [hq])]
            simp [FP.lt]
          · rw [if_pos hq]
            cases ht : a.collision_threshold_s <;> simp_all [FP.lt, FP.le]
      | posInf =>
          simp only [FP.div, if_pos (le_refl (0 : ℚ))]
          cases ht : a.collision_threshold_s <;> simp_all [FP.lt, FP.le]
      | negInf =>
          simp only [FP.div, if_pos (le_refl (0 : ℚ))]
          simp [FP.lt]
      | nan =>
          simp [FP.div, FP.lt]
    · cases hd : cd.distance_m with
      | finite q =>
          simp only [FP.div, ne_eq, not_true_eq_false, if_false, ite_not]
          split
          · rfl
          · split <;> rfl
      | posInf => simp [FP.div, FP.isFinite]
      | negInf => simp [FP.div, FP.isFinite]
      | nan => rfl
  refine ⟨hguard.2, hguard.1, ?_⟩
  simp [AutoBrake.car_detected_callback, hguard.1]

/-- C6 witness: the fresh controller (speed 0, threshold 5) with
`CarDetected{100, 0}`: quotient non-finite, guard false, no publish. -/
theorem C6_witness :
    AutoBrake.init.speed_mps = FP.finite 0 ∧
    AutoBrake.init.collision_threshold_s ≠ FP.posInf ∧
    FP.isFinite (FP.div (FP.finite 100) AutoBrake.init.speed_mps) = false ∧
    AutoBrake.init.car_detected_callback MockServiceBus.init
        { distance_m := FP.finite 100, velocity_mps := FP.finite 0 } =
      (AutoBrake.init, MockServiceBus.init) :=
  ⟨rfl, by decide,
   (C6_zero_speed_no_publish AutoBrake.init MockServiceBus.init
     { distance_m := FP.finite 100, velocity_mps := FP.finite 0 } rfl (by decide)).1,
   (C6_zero_speed_no_publish AutoBrake.init MockServiceBus.init
     { distance_m := FP.finite 100, velocity_mps := FP.finite 0 } rfl (by decide)).2.2⟩

/-- C7: the `SpeedLimitDetected` handler always stores the new limit; it then
publishes exactly one `BrakeCommand{0}` when the recorded speed exceeds the
just-stored limit, and publishes nothing when the recorded speed is at most the
limit; and in Scenario E (`SpeedUpdate{30}` then `SpeedLimitDetected{25}` on a
fresh controller) exactly one `BrakeCommand{0}` is published. -/
theorem C7_speed_limit_behavior :
    (∀ (a : AutoBrake) (bus : MockServiceBus) (l : SpeedLimitDetected),
      ((a.speed_limit_callback bus l).1).last_known_speed_limit = l.speed_mps ∧
      (FP.lt (FP.ofNat l.speed_mps) a.speed_mps = true →
        a.speed_limit_callback bus l =
          ({ a with last_known_speed_limit := l.speed_mps },
           bus.publish { time_to_collision_s := FP.finite 0 })) ∧
      (FP.le a.speed_mps (FP.ofNat l.speed_mps) = true →
        a.speed_limit_callback bus l =
          ({ a with last_known_speed_limit := l.speed_mps }, bus))) ∧
    runScenarioE =
      ({ collision_threshold_s := FP.finite 5, speed_mps := FP.finite 30,
         last_known_speed_limit := 25 },
       { last_command := { time_to_collision_s := FP.finite 0 }, commands_published := 1 }) := by
  refine ⟨fun a bus l => ⟨?_, fun h => ?_, fun h => ?_⟩, rfl⟩
  · simp only [AutoBrake.speed_limit_callback]
    split <;> rfl
  · simp [AutoBrake.speed_limit_callback, h]
  · simp [AutoBrake.speed_limit_callback, FP.not_lt_of_le h]

/-- C7 witness: after `SpeedUpdate{30}`, `SpeedLimitDetected{25}` publishes one
`BrakeCommand{0}`; on a fresh controller (speed 0), `SpeedLimitDetected{35}`
publishes nothing; both store the limit. -/
theorem C7_witness :
    FP.lt (FP.ofNat 25) s30.speed_mps = true ∧
    s30.speed_limit_callback MockServiceBus.init { speed_mps := 25 } =
      ({ s30 with last_known_speed_limit := 25 },
       MockServiceBus.init.publish { time_to_collision_s := FP.finite 0 }) ∧
    FP.le AutoBrake.init.speed_mps (FP.ofNat 35) = true ∧
    AutoBrake.init.speed_limit_callback MockServiceBus.init { speed_mps := 35 } =
      ({ AutoBrake.init with last_known_speed_limit := 35 }, MockServiceBus.init) :=
  ⟨by decide,
   (C7_speed_limit_behavior.1 s30 MockServiceBus.init { speed_mps := 25 }).2.1 (by decide),
   by decide,
   (C7_speed_limit_behavior.1 AutoBrake.init MockServiceBus.init
     { speed_mps := 35 }).2.2 (by decide)⟩

/-- C8 counterexample: from the reachable state with recorded speed 40
(fresh controller, `SpeedLimitDetected{100}`, `SpeedUpdate{40}`), delivering
`SpeedLimitDetected{35}` twice publishes a brake command BOTH times (counts 1
then 2), not only on the first event: the handler re-checks
`speed_mps > last_known_speed_limit` on every delivery. -/
theorem C8_counterexample :
    Reachable overspeedState ∧
    FP.lt (FP.ofNat 35) overspeedState.speed_mps = true ∧
    (overspeedState.speed_limit_callback MockServiceBus.init
        { speed_mps := 35 }).2.commands_published = 1 ∧
    ((overspeedState.speed_limit_callback MockServiceBus.init { speed_mps := 35 }).1.speed_limit_callback
        (overspeedState.speed_limit_callback MockServiceBus.init { speed_mps := 35 }).2
        { speed_mps := 35 }).1.last_known_speed_limit = 35 ∧
    ((overspeedState.speed_limit_callback MockServiceBus.init { speed_mps := 35 }).1.speed_limit_callback
        (overspeedState.speed_limit_callback MockServiceBus.init { speed_mps := 35 }).2
        { speed_mps := 35 }).2.commands_published = 2 := by
  have h1 : (step AutoBrake.init MockServiceBus.init
      (Event.speedLimitDetected { speed_mps := 100 })).1 = limit100State := rfl
  have h2 : (step limit100State MockServiceBus.init
      (Event.speedUpdate { velocity_mps := FP.finite 40 })).1 = overspeedState := rfl
  exact ⟨Reachable.step (Reachable.step Reachable.init h1) h2, by decide, by decide,
    by decide, by decide⟩

/-- C8 (amended): for every `L` and every state whose recorded speed exceeds
`L`, two successive identical `SpeedLimitDetected{L}` events leave
`last_known_speed_limit == L` and publish one brake command on EACH of the two
events (the handler re-checks the overspeed condition and republishes), so the
publication count rises by two. -/
theorem C8_repeat_limit_republishes (a : AutoBrake) (bus : MockServiceBus) (L : Nat)
    (h : FP.lt (FP.ofNat L) a.speed_mps = true) :
    ((a.speed_limit_callback bus { speed_mps := L }).1).last_known_speed_limit = L ∧
    ((a.speed_limit_callback bus { speed_mps := L }).2).commands_published =
      bus.commands_published + 1 ∧
    (((a.speed_limit_callback bus { speed_mps := L }).1.speed_limit_callback
        (a.speed_limit_callback bus { speed_mps := L }).2
        { speed_mps := L }).1).last_known_speed_limit = L ∧
    (((a.speed_limit_callback bus { speed_mps := L }).1.speed_limit_callback
        (a.speed_limit_callback bus { speed_mps := L }).2
        { speed_mps := L }).2).commands_published = bus.commands_published + 2 := by
  simp [AutoBrake.speed_limit_callback, MockServiceBus.publish, h]

/-- C8 witness: the amended behavior at the concrete overspeed state
(speed 40, L = 35). -/
theorem C8_witness :
    FP.lt (FP.ofNat 35) overspeedState.speed_mps = true ∧
    ((overspeedState.speed_limit_callback MockServiceBus.init
        { speed_mps := 35 }).2).commands_published = MockServiceBus.init.commands_published + 1 ∧
    (((overspeedState.speed_limit_callback MockServiceBus.init { speed_mps := 35 }).1.speed_limit_callback
        (overspeedState.speed_limit_callback MockServiceBus.init { speed_mps := 35 }).2
        { speed_mps := 35 }).2).commands_published = MockServiceBus.init.commands_published + 2 :=
  ⟨by decide,
   (C8_repeat_limit_republishes overspeedState MockServiceBus.init 35 (by decide)).2.1,
   (C8_repeat_limit_republishes overspeedState MockServiceBus.init 35 (by decide)).2.2.2⟩

/-- C9 counterexample: from the reachable state with threshold NaN (obtained
by `set_collision_threshold_s(NaN)`) and recorded speed 30, the event
`SpeedLimitDetected{20}` publishes a `BrakeCommand{0}`, and at that moment
`time_to_collision_s <= collision_threshold_s` does NOT hold (nothing is
`<=` NaN), so the claimed output invariant fails. -/
theorem C9_counterexample :
    Reachable nanCruisingState ∧
    (step nanCruisingState MockServiceBus.init
        (Event.speedLimitDetected { speed_mps := 20 })).2.commands_published =
      MockServiceBus.init.commands_published + 1 ∧
    FP.le ((step nanCruisingState MockServiceBus.init
        (Event.speedLimitDetected { speed_mps := 20 })).2.last_command.time_to_collision_s)
      nanCruisingState.collision_threshold_s = false := by
  have h1 : AutoBrake.init.set_collision_threshold_s FP.nan = Except.ok nanThresholdState := rfl
  have h2 : (step nanThresholdState MockServiceBus.init
      (Event.speedUpdate { velocity_mps := FP.finite 30 })).1 = nanCruisingState := rfl
  exact ⟨Reachable.step (Reachable.set Reachable.init h1) h2, by decide, by decide⟩

/-- C9 (amended): whenever a handler invocation from a reachable state
publishes a command, the published `time_to_collision_s` is `>= 0`, and it is
`<= collision_threshold_s` whenever the threshold is not NaN (the overspeed
handlers publish exactly 0 and the reachable threshold is never `< 1`; the
car-detected handler publishes only values passing its guard). -/
theorem C9_published_command_bounds (a : AutoBrake) (bus : MockServiceBus) (e : Event)
    (hr : Reachable a)
    (hpub : (step a bus e).2.commands_published = bus.commands_published + 1) :
    FP.le (FP.finite 0) ((step a bus e).2.last_command.time_to_collision_s) = true ∧
    (a.collision_threshold_s ≠ FP.nan →
      FP.le ((step a bus e).2.last_command.time_to_collision_s)
        a.collision_threshold_s = true) := by
  cases e with
  | speedUpdate u =>
      by_cases hc : FP.lt (FP.ofNat a.last_known_speed_limit) u.velocity_mps = true
      · have hs : step a bus (Event.speedUpdate u) =
            (a, bus.publish { time_to_collision_s := FP.finite 0 }) := by
          simp [step, AutoBrake.speed_update_callback, hc]
        rw [hs]
        exact ⟨rfl, fun hn => FP.zero_le_of_not_lt (reachable_not_lt_one hr) hn⟩
      · have hs : step a bus (Event.speedUpdate u) =
            ({ a with speed_mps := u.velocity_mps }, bus) := by
          simp only [step, AutoBrake.speed_update_callback]
          rw [if_neg (by simpa using hc)]
        rw [hs] at hpub
        simp at hpub
  | carDetected cd =>
      by_cases hc : (FP.lt (FP.finite 0) (FP.div cd.distance_m a.speed_mps) &&
          FP.le (FP.div cd.distance_m a.speed_mps) a.collision_threshold_s) = true
      · have hs : step a bus (Event.carDetected cd) =
            (a, bus.publish { time_to_collision_s := FP.div cd.distance_m a.speed_mps }) := by
          simp [step, AutoBrake.car_detected_callback, hc]
        rw [hs]
        rw [Bool.and_eq_true] at hc
        exact ⟨FP.le_of_lt hc.1, fun _ => hc.2⟩
      · have hs : step a bus (Event.carDetected cd) = (a, bus) := by
          simp only [step, AutoBrake.car_detected_callback]
          rw [if_neg (by simpa using hc)]
        rw [hs] at hpub
        simp at hpub
  | speedLimitDetected l =>
      by_cases hc : FP.lt (FP.ofNat l.speed_mps) a.speed_mps = true
      · have hs : step a bus (Event.speedLimitDetected l) =
            ({ a with last_known_speed_limit := l.speed_mps },
             bus.publish { time_to_collision_s := FP.finite 0 }) := by
          simp [step, AutoBrake.speed_limit_callback, hc]
        rw [hs]
        exact ⟨rfl, fun hn => FP.zero_le_of_not_lt (reachable_not_lt_one hr) hn⟩
      · have hs : step a bus (Event.speedLimitDetected l) =
            ({ a with last_known_speed_limit := l.speed_mps }, bus) := by
          simp only [step, AutoBrake.speed_limit_callback]
          rw [if_neg (by simpa using hc)]
        rw [hs] at hpub
        simp at hpub

/-- C9 witness: from the reachable state after `SpeedUpdate{30}` on a fresh
controller, `SpeedLimitDetected{25}` publishes one command whose
`time_to_collision_s` is between 0 and the threshold. -/
theorem C9_witness :
    (step s30 MockServiceBus.init
        (Event.speedLimitDetected { speed_mps := 25 })).2.commands_published =
      MockServiceBus.init.commands_published + 1 ∧
    FP.le (FP.finite 0) ((step s30 MockServiceBus.init
        (Event.speedLimitDetected { speed_mps := 25 })).2.last_command.time_to_collision_s) = true ∧
    FP.le ((step s30 MockServiceBus.init
        (Event.speedLimitDetected { speed_mps := 25 })).2.last_command.time_to_collision_s)
      s30.collision_threshold_s = true := by
  have h1 : (step AutoBrake.init MockServiceBus.init
      (Event.speedUpdate { velocity_mps := FP.finite 30 })).1 = s30 := rfl
  have h := C9_published_command_bounds s30 MockServiceBus.init
    (Event.speedLimitDetected { speed_mps := 25 })
    (Reachable.step Reachable.init h1) (by decide)
  exact ⟨by decide, h.1, h.2 (by decide)⟩

/-- C10: frame properties of the three handlers: the car-detected handler
never mutates any state field; the speed-update handler changes at most
`speed_mps`; the speed-limit handler changes at most `last_known_speed_limit`;
in particular no handler ever modifies `collision_threshold_s`. -/
theorem C10_handler_frame :
    ∀ (a : AutoBrake) (bus : MockServiceBus),
      (∀ cd : CarDetected, (a.car_detected_callback bus cd).1 = a) ∧
      (∀ u : SpeedUpdate,
        ((a.speed_update_callback bus u).1).collision_threshold_s = a.collision_threshold_s ∧
        ((a.speed_update_callback bus u).1).last_known_speed_limit = a.last_known_speed_limit) ∧
      (∀ l : SpeedLimitDetected,
        ((a.speed_limit_callback bus l).1).collision_threshold_s = a.collision_threshold_s ∧
        ((a.speed_limit_callback bus l).1).speed_mps = a.speed_mps) := by
  intro a bus
  refine ⟨fun cd => ?_, fun u => ?_, fun l => ?_⟩
  · simp only [AutoBrake.car_detected_callback]
    split <;> rfl
  · simp only [AutoBrake.speed_update_callback]
    constructor <;> split <;> rfl
  · simp only [AutoBrake.speed_limit_callback]
    constructor <;> split <;> rfl

end Ch10
